import Mathlib

/-!
Verification of the navigation sidebar component
(`src/components/Navigation.jsx`) against its specification.

The component is a pure projection of external state (current route path,
section list, visible-section ids) into layout data: which group is active,
where the visible-section highlight band and the active-page marker sit,
and which link's sub-section list is expanded.  We embed those computations
as Lean functions and prove the specified properties about them.
-/

namespace Navigation

/-- A navigation link: the `{ title, href }` records of the `navigation`
data, with the optional `tag` used by anchor sub-links. -/
structure Link where
  title : String
  href : String
  tag : Option String
deriving DecidableEq

/-- Constructor shorthand for the untagged links of the `navigation` data. -/
def lnk (title href : String) : Link := ⟨title, href, none⟩

/-- A navigation group: a title plus an ordered list of links. -/
structure Group where
  title : String
  links : List Link
deriving DecidableEq

/-- An in-page section as supplied by the section store:
`{ id, title, tag }`. -/
structure SectionInfo where
  id : String
  title : String
  tag : Option String
deriving DecidableEq

/-- Embedding of JavaScript `Array.prototype.findIndex` restricted to the
found-index part: `some i` when `i` is the first index whose element
satisfies `p`, `none` when no element does. -/
def findIndexAux (p : α → Bool) : List α → Option Nat
  | [] => none
  | a :: as => if p a then some 0 else (findIndexAux p as).map (· + 1)

/-- Embedding of JavaScript `Array.prototype.findIndex`: the first index
whose element satisfies `p`, and `-1` when no element does. -/
def jsFindIndex (p : α → Bool) (xs : List α) : Int :=
  match findIndexAux p xs with
  | none => -1
  | some i => i

/-- Modelled from the spec: the rem-to-pixel conversion utility
(`@/lib/remToPx`, whose source file is not part of this fragment) converts
relative units to absolute pixels through the constant base text-size unit
of 16 pixels per rem. -/
def remToPx (rem : ℚ) : ℚ := rem * 16

/-- The fixed row height `H`: each link or section row occupies
`remToPx(2)` pixels. -/
def itemHeight : ℚ := remToPx 2

/-- The fixed marker offset `O`: `remToPx(0.25)` pixels
(`ActivePageMarker`). -/
def offset : ℚ := remToPx 0.25

/-- The active-page index of a group for a pathname:
`group.links.findIndex((link) => link.href === pathname)`
(`ActivePageMarker`, and the same expression in `VisibleSectionHighlight`
and `NavigationGroup`). -/
def activePageIndex (group : Group) (pathname : String) : Int :=
  jsFindIndex (fun link => link.href == pathname) group.links

/-- Whether a group is active:
`group.links.findIndex((link) => link.href === router.pathname) !== -1`
(`NavigationGroup`). -/
def isActiveGroup (group : Group) (pathname : String) : Bool :=
  activePageIndex group pathname != -1

/-- The synthetic top entry prepended to the section list in
`VisibleSectionHighlight`: `{ id: '_top' }`. -/
def topEntry : SectionInfo := ⟨"_top", "", none⟩

/-- The first-visible-section index of `VisibleSectionHighlight`:
`Math.max(0, [{ id: '_top' }, ...sections].findIndex((section) =>
section.id === visibleSections[0]))`.  An empty `visibleSections` makes
`visibleSections[0]` undefined, which equals no string id. -/
def firstVisibleSectionIndex (sections : List SectionInfo)
    (visibleSections : List String) : Int :=
  max 0 (jsFindIndex
    (fun s => match visibleSections.head? with
      | some v => s.id == v
      | none => false)
    (topEntry :: sections))

/-- The highlight band height of `VisibleSectionHighlight`:
`isPresent ? Math.max(1, visibleSections.length) * itemHeight : itemHeight`. -/
def highlightHeight (isPresent : Bool) (visibleSections : List String) : ℚ :=
  if isPresent then (max 1 visibleSections.length : ℕ) * itemHeight else itemHeight

/-- The highlight band top of `VisibleSectionHighlight`:
`group.links.findIndex((link) => link.href === pathname) * itemHeight +
firstVisibleSectionIndex * itemHeight`. -/
def highlightTop (group : Group) (pathname : String)
    (sections : List SectionInfo) (visibleSections : List String) : ℚ :=
  (jsFindIndex (fun link => link.href == pathname) group.links) * itemHeight +
    (firstVisibleSectionIndex sections visibleSections) * itemHeight

/-- The marker top of `ActivePageMarker` as a function of the active page
index: `offset + activePageIndex * itemHeight`. -/
def markerTop (activePageIndex : Int) : ℚ :=
  offset + activePageIndex * itemHeight

/-- The marker top of `ActivePageMarker` for a group and pathname. -/
def activePageMarkerTop (group : Group) (pathname : String) : ℚ :=
  markerTop (activePageIndex group pathname)

/-- The layout-relevant output of rendering one `NavigationGroup`:
the highlight band rectangle (top, height) when rendered, the marker top
when rendered, and one flag per link telling whether its sub-section list
is expanded under it. -/
structure GroupRender where
  highlight : Option (ℚ × ℚ)
  marker : Option ℚ
  expansions : List Bool
deriving DecidableEq

/-- Rendering one `NavigationGroup` body: the highlight band and the marker
render exactly when `isActiveGroup`; under each link, the sub-section list
renders exactly when `link.href === router.pathname && sections.length > 0`. -/
def renderGroup (group : Group) (pathname : String)
    (sections : List SectionInfo) (visibleSections : List String)
    (isPresent : Bool) : GroupRender :=
  ⟨if isActiveGroup group pathname then
      some (highlightTop group pathname sections visibleSections,
        highlightHeight isPresent visibleSections)
    else none,
  if isActiveGroup group pathname then
      some (activePageMarkerTop group pathname)
    else none,
  group.links.map (fun link =>
    link.href == pathname && decide (sections.length > 0))⟩

/-- The external view state read by the component: the router pathname and
the section store contents. -/
structure ViewState where
  pathname : String
  sections : List SectionInfo
  visibleSections : List String
deriving DecidableEq

/-- Embedding of the `useInitialValue` hook: it returns the value captured
on first render while `condition` holds, and the live value otherwise. -/
def useInitialValue (initial live : α) (condition : Bool) : α :=
  if condition then initial else live

/-- Rendering one `NavigationGroup` with the freeze policy: inside the
mobile navigation the component reads the view state captured at first
render (overlay open), otherwise the live view state. -/
def navigationGroupRender (isInsideMobileNavigation : Bool)
    (initial live : ViewState) (isPresent : Bool) (group : Group) :
    GroupRender :=
  let st := useInitialValue initial live isInsideMobileNavigation
  renderGroup group st.pathname st.sections st.visibleSections isPresent

/-- The number of expanded sub-section lists rendered across a whole
navigation tree. -/
def expansionCount (nav : List Group) (pathname : String)
    (sections : List SectionInfo) : ℕ :=
  (nav.map (fun g =>
    ((renderGroup g pathname sections [] true).expansions.count true))).sum

/-- The static `navigation` data table exported by the component: the
ordered list of groups, each with its ordered list of links, transcribed
from the source. -/
def navigation : List Group :=
  [⟨"Javascript",
    [lnk "词法环境" "/",
     lnk "问题摘要" "/quickstart",
     lnk "Chrome V8引擎" "/sdks",
     lnk "Chrome extensions" "/authentication",
     lnk "语法树类型标识" "/pagination",
     lnk "浏览器运行机制" "/errors"]⟩,
   ⟨"Babel",
    [lnk "Babel乱笔" "/contacts",
     lnk "Babel疑问" "/conversations",
     lnk "babel-core" "/messages",
     lnk "初探AST" "/groups",
     lnk "babelrc杂谈" "/attachments",
     lnk "Babel预设Presets" "/attachments"]⟩,
   ⟨"Wepback",
    [lnk "整体配置结构" "/contacts",
     lnk "简易版打包实现库" "/conversations",
     lnk "打包后代码片段" "/messages",
     lnk "webpack问题点" "/groups",
     lnk "配置文档" "/webpack-config"]⟩,
   ⟨"Next.js",
    [lnk "Next架构图" "/contacts",
     lnk "Next.js VS Remix" "/conversations",
     lnk "CSR、SSR、SR、HR" "/messages",
     lnk "Next.config.js" "/groups",
     lnk "Next.js 技术文档" "/attachments",
     lnk "Next.js 源码浅析" "/attachments"]⟩,
   ⟨"React",
    [lnk "React架构图" "/contacts",
     lnk "精通React提纲" "/conversations",
     lnk "React 名词解释" "/messages",
     lnk "调试React代码" "/groups",
     lnk "React 18新特性" "/attachments"]⟩,
   ⟨"前端算法实战",
    [lnk "前端算法实战" "/contacts",
     lnk "网站大全" "/contacts"]⟩,
   ⟨"Shell",
    [lnk "常见Shell命令" "/contacts",
     lnk "Shell特性Login" "/conversations",
     lnk "Shader" "/messages"]⟩,
   ⟨"Typescript",
    [lnk "TS学习大纲" "/contacts",
     lnk "TS-JSX" "/conversations",
     lnk "tsconfig.json" "/messages",
     lnk "TS代码片段" "/messages",
     lnk "TS 高级类型使用" "/messages",
     lnk "declare使用姿势" "/messages",
     lnk "TS 记录摘要" "/messages"]⟩,
   ⟨"Vue",
    [lnk "混入和插件机制" "/contacts",
     lnk "依赖收集" "/conversations",
     lnk "响应原理如何实现" "/messages",
     lnk "生命周期" "/messages",
     lnk "生命周期" "/messages"]⟩,
   ⟨"前端工程化",
    [lnk "统一标准：流程、规范统一" "/contacts",
     lnk "微前端" "/conversations"]⟩,
   ⟨"网络知识",
    [lnk "JWT" "/contacts",
     lnk "网络七层&协议" "/conversations",
     lnk "协商&强缓存" "/messages",
     lnk "HTTPS 详解" "/messages"]⟩,
   ⟨"性能优化",
    [lnk "PerformanceObserver code" "/contacts",
     lnk "性能杂谈" "/conversations",
     lnk "2020 - web-vitals" "/conversations",
     lnk "2018 - Lighthouse" "/messages",
     lnk "2017 - Audit" "/messages",
     lnk "2015 - PWA & AMP" "/messages",
     lnk "RAIL 量化使用者体验" "/messages",
     lnk "Chrome 性能工具 - Audit" "/messages"]⟩]

/-- Rendering the whole sidebar (`Navigation`): one `NavigationGroup`
render per group of `navigation`, in order. -/
def renderNavigation (pathname : String) (sections : List SectionInfo)
    (visibleSections : List String) (isPresent : Bool) : List GroupRender :=
  navigation.map (fun g =>
    renderGroup g pathname sections visibleSections isPresent)

/-- Stated from the amended spec words: the highlight band top is
`H × activeIdx` plus `H × s`, where `s` is the position of the first
visible section id within the id list prepended with the synthetic
`"_top"` entry, and `0` when no id matches. -/
def specHighlightTop (activeIdx : Int) (sections : List SectionInfo)
    (visibleSections : List String) : ℚ :=
  itemHeight * activeIdx +
    itemHeight *
      ((match visibleSections.head? with
        | none => (0 : Int)
        | some v =>
          match findIndexAux (fun sid => sid == v)
              ("_top" :: sections.map SectionInfo.id) with
          | none => 0
          | some k => (k : Int)) : Int)

/-- The first two links of the Javascript group, as used by the scenario of
the spec (group title `Javascript`, links `词法环境 → /` and
`问题摘要 → /quickstart`). -/
def cnGroup : Group :=
  ⟨"Javascript", [lnk "词法环境" "/", lnk "问题摘要" "/quickstart"]⟩

/-- A two-section document whose ordered section ids are
`["intro", "usage"]`. -/
def demoSections : List SectionInfo :=
  [⟨"intro", "Intro", none⟩, ⟨"usage", "Usage", none⟩]

/-- The `前端算法实战` group of the `navigation` data: both of its links
share the href `/contacts`. -/
def dupGroup : Group :=
  ⟨"前端算法实战", [lnk "前端算法实战" "/contacts", lnk "网站大全" "/contacts"]⟩

/-- A one-element section list, making `sections.length > 0` hold. -/
def oneSection : List SectionInfo := [⟨"s1", "", none⟩]

theorem findIndexAux_eq_none_iff {p : α → Bool} {xs : List α} :
    findIndexAux p xs = none ↔ ∀ x ∈ xs, p x = false := by
  induction xs with
  | nil => simp [findIndexAux]
  | cons a as ih =>
    cases hpa : p a with
    | false => simp [findIndexAux, hpa, ih]
    | true => simp [findIndexAux, hpa]

theorem findIndexAux_eq_some {p : α → Bool} {xs : List α} {i : Nat}
    (h : findIndexAux p xs = some i) :
    ∃ hi : i < xs.length, p (xs.get ⟨i, hi⟩) = true ∧
      ∀ j, j < i → ∀ hj : j < xs.length, p (xs.get ⟨j, hj⟩) = false := by
  induction xs generalizing i with
  | nil => simp [findIndexAux] at h
  | cons a as ih =>
    cases hpa : p a with
    | true =>
      simp only [findIndexAux, hpa, if_pos, Option.some.injEq] at h
      subst h
      exact ⟨Nat.succ_pos _, by simpa using hpa, fun j hj _ => absurd hj (Nat.not_lt_zero j)⟩
    | false =>
      simp only [findIndexAux, hpa, Bool.false_eq_true, if_false, Option.map_eq_some'] at h
      obtain ⟨k, hk, rfl⟩ := h
      obtain ⟨hk1, hk2, hk3⟩ := ih hk
      refine ⟨by simpa using Nat.succ_lt_succ hk1, by simpa using hk2, ?_⟩
      intro j hj hjlen
      match j with
      | 0 => simpa using hpa
      | j + 1 =>
        have := hk3 j (Nat.lt_of_succ_lt_succ hj) (Nat.lt_of_succ_lt_succ hjlen)
        simpa using this

theorem findIndexAux_map {p : β → Bool} {f : α → β} {xs : List α} :
    findIndexAux p (xs.map f) = findIndexAux (fun a => p (f a)) xs := by
  induction xs with
  | nil => rfl
  | cons a as ih =>
    cases hpa : p (f a) with
    | true => simp [findIndexAux, hpa]
    | false => simp [findIndexAux, hpa, ih]

theorem jsFindIndex_eq_neg_one_iff {p : α → Bool} {xs : List α} :
    jsFindIndex p xs = -1 ↔ ∀ x ∈ xs, p x = false := by
  unfold jsFindIndex
  cases h : findIndexAux p xs with
  | none => simpa using findIndexAux_eq_none_iff.mp h
  | some i =>
    constructor
    · intro hcontra
      exact absurd hcontra (by simp)
    · intro hall
      rw [findIndexAux_eq_none_iff.mpr hall] at h
      exact absurd h (by simp)

theorem jsFindIndex_cases (p : α → Bool) (xs : List α) :
    jsFindIndex p xs = -1 ∨ ∃ i : Nat, jsFindIndex p xs = (i : Int) := by
  unfold jsFindIndex
  cases h : findIndexAux p xs with
  | none => exact Or.inl rfl
  | some i => exact Or.inr ⟨i, rfl⟩

theorem jsFindIndex_eq_natCast {p : α → Bool} {xs : List α} {i : Nat}
    (h : jsFindIndex p xs = (i : Int)) : findIndexAux p xs = some i := by
  cases hfi : findIndexAux p xs with
  | none =>
    simp only [jsFindIndex, hfi] at h
    exact absurd h (by omega)
  | some k =>
    have hk : (k : Int) = (i : Int) := by simpa [jsFindIndex, hfi] using h
    have : k = i := by exact_mod_cast hk
    rw [this]

theorem activePageIndex_eq_neg_one_iff {g : Group} {p : String} :
    activePageIndex g p = -1 ↔ ∀ l ∈ g.links, l.href ≠ p := by
  unfold activePageIndex
  rw [jsFindIndex_eq_neg_one_iff]
  constructor
  · intro h l hl
    simpa using h l hl
  · intro h l hl
    simpa using h l hl

theorem isActiveGroup_iff {g : Group} {p : String} :
    isActiveGroup g p = true ↔ ∃ l ∈ g.links, l.href = p := by
  unfold isActiveGroup
  rw [bne_iff_ne, Ne, activePageIndex_eq_neg_one_iff]
  push_neg
  rfl

theorem activePageIndex_spec {g : Group} {p : String} {i : ℕ}
    (h : activePageIndex g p = (i : Int)) :
    ∃ hi : i < g.links.length, (g.links.get ⟨i, hi⟩).href = p ∧
      ∀ j, j < i → ∀ hj : j < g.links.length, (g.links.get ⟨j, hj⟩).href ≠ p := by
  obtain ⟨hi, hm, hf⟩ := findIndexAux_eq_some (jsFindIndex_eq_natCast h)
  exact ⟨hi, by simpa using hm, fun j hj hjl => by simpa using hf j hj hjl⟩

theorem activePageIndex_eq_of_first {g : Group} {p : String} {i : ℕ}
    (hi : i < g.links.length)
    (hm : (g.links.get ⟨i, hi⟩).href = p)
    (hf : ∀ j, j < i → ∀ hj : j < g.links.length, (g.links.get ⟨j, hj⟩).href ≠ p) :
    activePageIndex g p = (i : Int) := by
  rcases jsFindIndex_cases (fun l => l.href == p) g.links with hc | ⟨k, hk⟩
  · have hc2 : activePageIndex g p = -1 := hc
    exact absurd hm (activePageIndex_eq_neg_one_iff.mp hc2 _ (List.get_mem _ _ _))
  · have hk2 : activePageIndex g p = (k : Int) := hk
    obtain ⟨hk1, hkm, hkf⟩ := activePageIndex_spec hk2
    rcases Nat.lt_trichotomy i k with hik | rfl | hki
    · exact absurd hm (hkf i hik hi)
    · exact hk2
    · exact absurd hkm (hf k hki hk1)

/-- C1: for every group `G` and path `p`, the group-activity computation
returns active = true iff some link in `G` has href equal to `p`, and the
active-link index it computes is the zero-based index of a matching link,
or `-1` when no link in `G` matches. -/
theorem c1_active_group_resolver (g : Group) (p : String) :
    (isActiveGroup g p = true ↔ ∃ l ∈ g.links, l.href = p) ∧
    (activePageIndex g p = -1 ∨ ∃ i : ℕ, activePageIndex g p = (i : Int)) ∧
    (∀ i : ℕ, activePageIndex g p = (i : Int) →
      ∃ hi : i < g.links.length, (g.links.get ⟨i, hi⟩).href = p) ∧
    ((∀ l ∈ g.links, l.href ≠ p) → activePageIndex g p = -1) := by
  refine ⟨isActiveGroup_iff, jsFindIndex_cases _ _, ?_,
    fun h => activePageIndex_eq_neg_one_iff.mpr h⟩
  intro i hi
  obtain ⟨h1, h2, _⟩ := activePageIndex_spec hi
  exact ⟨h1, h2⟩

/-- Witness for C1 at the Javascript sample group and path `/quickstart`. -/
theorem c1_witness : isActiveGroup cnGroup "/quickstart" = true :=
  (c1_active_group_resolver cnGroup "/quickstart").1.mpr
    ⟨lnk "问题摘要" "/quickstart", by decide, rfl⟩

/-- C2 (failing on the shipped data): with current path `/contacts` and a
non-empty section list, twelve sub-section expansions render simultaneously
across the navigation tree, not at most one. -/
theorem c2_multiple_expansions :
    expansionCount navigation "/contacts" oneSection = 12 ∧
    1 < expansionCount navigation "/contacts" oneSection := by
  constructor <;> decide

/-- C4: the highlight band height is `H × max(1, count of visible
sections)` while present — `H × count` for a non-empty list and `H × 1`
for an empty one — and exactly `H` while not present. -/
theorem c4_highlight_height (vs : List String) :
    highlightHeight true vs = itemHeight * (max 1 vs.length : ℕ) ∧
    (vs ≠ [] → highlightHeight true vs = itemHeight * vs.length) ∧
    (vs = [] → highlightHeight true vs = itemHeight * 1) ∧
    highlightHeight false vs = itemHeight := by
  refine ⟨?_, ?_, ?_, rfl⟩
  · simp [highlightHeight, mul_comm]
  · intro h
    have hlen : 1 ≤ vs.length := List.length_pos.mpr h
    simp [highlightHeight, Nat.max_eq_right hlen, mul_comm]
  · rintro rfl
    simp [highlightHeight]

/-- Witness for C4: a two-element visible list gives height `H × 2`, an
empty one gives height `H × 1`. -/
theorem c4_witness :
    highlightHeight true ["intro", "usage"] = itemHeight * 2 ∧
    highlightHeight true ([] : List String) = itemHeight * 1 := by
  constructor
  · have h := (c4_highlight_height ["intro", "usage"]).2.1 (by decide)
    simpa using h
  · exact (c4_highlight_height []).2.2.1 rfl

/-- C6 (failing on the shipped data): the `navigation` data does not keep
hrefs unique within every group. -/
theorem c6_duplicate_hrefs :
    ¬ ∀ g ∈ navigation, List.Nodup (g.links.map Link.href) := by decide

/-- C9: inside the mobile (transient overlay) context the rendered output
depends only on the view state captured at first render; two runs that
differ only in later live updates to the route and section state produce
the same output. -/
theorem c9_mobile_freeze (initial live1 live2 : ViewState) (isPresent : Bool)
    (g : Group) :
    navigationGroupRender true initial live1 isPresent g =
      navigationGroupRender true initial live2 isPresent g := by
  simp [navigationGroupRender, useInitialValue]

/-- C5: the active-link marker top is `O + H × (index of the active link
within its group)`; the Javascript sample group with current path
`/quickstart` is active with index 1 and marker top `O + H`. -/
theorem c5_marker_top :
    (∀ (g : Group) (p : String) (i : ℕ), activePageIndex g p = (i : Int) →
      activePageMarkerTop g p = offset + itemHeight * i) ∧
    (isActiveGroup cnGroup "/quickstart" = true ∧
      activePageIndex cnGroup "/quickstart" = 1 ∧
      activePageMarkerTop cnGroup "/quickstart" = offset + itemHeight * 1) := by
  have hgen : ∀ (g : Group) (p : String) (i : ℕ),
      activePageIndex g p = (i : Int) →
      activePageMarkerTop g p = offset + itemHeight * i := by
    intro g p i h
    unfold activePageMarkerTop markerTop
    rw [h]
    push_cast
    ring
  refine ⟨hgen, by decide, by decide, ?_⟩
  have h := hgen cnGroup "/quickstart" 1 (by decide)
  simpa using h

/-- Witness for C5 at the Javascript sample group and path `/quickstart`. -/
theorem c5_witness :
    activePageMarkerTop cnGroup "/quickstart" = offset + itemHeight * (1 : ℕ) :=
  c5_marker_top.1 cnGroup "/quickstart" 1 (by decide)

/-- C7: a path matching no link of the tree leaves every group inactive and
renders no highlight band and no marker anywhere. -/
theorem c7_no_match (p : String)
    (h : ∀ g ∈ navigation, ∀ l ∈ g.links, l.href ≠ p)
    (sections : List SectionInfo) (vs : List String) (isPresent : Bool) :
    (∀ g ∈ navigation, isActiveGroup g p = false) ∧
    (∀ r ∈ renderNavigation p sections vs isPresent,
      r.highlight = none ∧ r.marker = none) := by
  have hinactive : ∀ g ∈ navigation, isActiveGroup g p = false := by
    intro g hg
    have hidx : activePageIndex g p = -1 :=
      activePageIndex_eq_neg_one_iff.mpr (h g hg)
    simp [isActiveGroup, hidx]
  refine ⟨hinactive, ?_⟩
  intro r hr
  simp only [renderNavigation, List.mem_map] at hr
  obtain ⟨g, hg, rfl⟩ := hr
  have hfalse := hinactive g hg
  simp [renderGroup, hfalse]

/-- Witness for C7 at path `/not-a-real-path` and the Shell group. -/
theorem c7_witness :
    isActiveGroup
      ⟨"Shell",
       [lnk "常见Shell命令" "/contacts",
        lnk "Shell特性Login" "/conversations",
        lnk "Shader" "/messages"]⟩ "/not-a-real-path" = false :=
  (c7_no_match "/not-a-real-path" (by decide) [] [] true).1 _ (by decide)

/-- C8: the marker top is strictly monotonically increasing in the active
link's index, all other inputs held fixed. -/
theorem c8_marker_monotone (i j : Int) (h : i < j) :
    markerTop i < markerTop j := by
  unfold markerTop
  have hij : (i : ℚ) < (j : ℚ) := by exact_mod_cast h
  have hH : (0 : ℚ) < itemHeight := by norm_num [itemHeight, remToPx]
  have hmul := mul_lt_mul_of_pos_right hij hH
  linarith

/-- Witness for C8 at indices 0 and 1. -/
theorem c8_witness : markerTop 0 < markerTop 1 :=
  c8_marker_monotone 0 1 (by decide)

/-- C10: when several links of a group share the current path, the index
used for the marker and the highlight band is the first matching index in
document order. -/
theorem c10_first_match_tie_break (g : Group) (p : String) (i : ℕ)
    (hi : i < g.links.length)
    (_hmulti : 2 ≤ (g.links.filter (fun l => l.href == p)).length)
    (hm : (g.links.get ⟨i, hi⟩).href = p)
    (hf : ∀ j, j < i → ∀ hj : j < g.links.length, (g.links.get ⟨j, hj⟩).href ≠ p) :
    activePageIndex g p = (i : Int) ∧
    activePageMarkerTop g p = offset + itemHeight * i ∧
    ∀ sections vs, highlightTop g p sections vs =
      itemHeight * i + itemHeight * firstVisibleSectionIndex sections vs := by
  have hidx : activePageIndex g p = (i : Int) :=
    activePageIndex_eq_of_first hi hm hf
  refine ⟨hidx, ?_, ?_⟩
  · unfold activePageMarkerTop markerTop
    rw [hidx]
    push_cast
    ring
  · intro sections vs
    unfold highlightTop
    have hidx2 : jsFindIndex (fun link => link.href == p) g.links = (i : Int) := hidx
    rw [hidx2]
    push_cast
    ring

/-- Witness for C10 at the duplicated-href group with path `/contacts`. -/
theorem c10_witness :
    activePageIndex dupGroup "/contacts" = ((0 : ℕ) : Int) ∧
    activePageMarkerTop dupGroup "/contacts" = offset + itemHeight * (0 : ℕ) :=
  ⟨(c10_first_match_tie_break dupGroup "/contacts" 0 (by decide) (by decide)
      (by decide) (fun j hj _ => absurd hj (Nat.not_lt_zero j))).1,
   (c10_first_match_tie_break dupGroup "/contacts" 0 (by decide) (by decide)
      (by decide) (fun j hj _ => absurd hj (Nat.not_lt_zero j))).2.1⟩

/-- C3 (failing as stated): the Javascript sample group is active at `/`
with active index 0, the ordered section ids are `["intro", "usage"]`, and
with visible sections `["intro", "usage"]` the band top is not
`H × 0 + H × 0`: the section-index contribution is `H`, not 0, because the
index is taken in the list prepended with the `_top` entry. -/
theorem c3_counterexample :
    isActiveGroup cnGroup "/" = true ∧
    activePageIndex cnGroup "/" = 0 ∧
    demoSections.map SectionInfo.id = ["intro", "usage"] ∧
    highlightTop cnGroup "/" demoSections ["intro", "usage"] ≠
      itemHeight * 0 + itemHeight * 0 := by
  refine ⟨by decide, by decide, by decide, ?_⟩
  have h1 : jsFindIndex (fun link => link.href == "/") cnGroup.links = 0 := by
    decide
  have h2 : firstVisibleSectionIndex demoSections ["intro", "usage"] = 1 := by
    decide
  unfold highlightTop
  rw [h1, h2]
  push_cast
  norm_num [itemHeight, remToPx]

theorem firstVisibleSectionIndex_eq (sections : List SectionInfo)
    (vs : List String) :
    firstVisibleSectionIndex sections vs =
      ((match vs.head? with
        | none => (0 : Int)
        | some v =>
          match findIndexAux (fun sid => sid == v)
              ("_top" :: sections.map SectionInfo.id) with
          | none => 0
          | some k => (k : Int)) : Int) := by
  cases hv : vs.head? with
  | none =>
    have hnone : findIndexAux
        (fun s : SectionInfo => match vs.head? with
          | some v => s.id == v
          | none => false) (topEntry :: sections) = none := by
      rw [findIndexAux_eq_none_iff]
      intro x _
      rw [hv]
    simp only [firstVisibleSectionIndex, jsFindIndex, hnone]
    norm_num
  | some v =>
    have hpred : (fun s : SectionInfo => match vs.head? with
        | some v => s.id == v
        | none => false) = fun s : SectionInfo => s.id == v := by
      funext s
      rw [hv]
    have hmap : findIndexAux (fun sid => sid == v)
        ("_top" :: sections.map SectionInfo.id)
        = findIndexAux (fun s : SectionInfo => s.id == v)
            (topEntry :: sections) := by
      have heq : ("_top" :: sections.map SectionInfo.id)
          = (topEntry :: sections).map SectionInfo.id := rfl
      rw [heq, findIndexAux_map]
    simp only [firstVisibleSectionIndex, jsFindIndex, hpred, hv, hmap]
    cases haux : findIndexAux (fun s : SectionInfo => s.id == v)
        (topEntry :: sections) with
    | none => norm_num
    | some k => exact max_eq_right (Int.natCast_nonneg k)

/-- C3 amended: the band top is `H × (index of active link within its
group) + H × s`, where `s` is the index of the first currently-visible
section id within the ordered id list prepended with the synthetic `_top`
entry, and 0 when no id matches; in the scenario of the claim the
section-index contribution is therefore `H`, not 0. -/
theorem c3_amended (g : Group) (p : String) (sections : List SectionInfo)
    (vs : List String) (_h : isActiveGroup g p = true) :
    highlightTop g p sections vs =
      specHighlightTop (activePageIndex g p) sections vs := by
  unfold highlightTop specHighlightTop activePageIndex
  rw [firstVisibleSectionIndex_eq]
  ring

/-- Witness for the amended C3 at the Javascript sample group, path `/`,
and visible sections `["intro", "usage"]`. -/
theorem c3_witness :
    highlightTop cnGroup "/" demoSections ["intro", "usage"] =
      specHighlightTop (activePageIndex cnGroup "/") demoSections
        ["intro", "usage"] :=
  c3_amended cnGroup "/" demoSections ["intro", "usage"] (by decide)
